import Mathlib

/-
Shallow embedding of `src/app.py` (Math Problem Solver, a Streamlit script).

The script is re-executed top to bottom on every user interaction.  We model
one such execution as a pure function `runScript` from the widget values, the
per-session state (the `messages` list held in `st.session_state`), and the
outcomes of the two external calls (the `ChatGroq` constructor, which may
raise, and `assistant_agent.run`, which returns a response or raises) to a
record of the observable effects of that execution: the new session state,
whether the script halted early (`st.stop`) or raised a rerun
(`st.experimental_rerun`), which model client was constructed, which tools
were built, which agent run was started with which callbacks, and which
informational banners were rendered.

Streamlit button semantics: a button widget returns `True` only in the single
script execution triggered by its click and `False` on every other execution
(in particular on the execution triggered by `st.experimental_rerun`).  The
`text_area` and sidebar widgets keep their values across reruns.
-/

set_option autoImplicit false

/-- Role of a conversation record (`{"role": ..., "content": ...}`). -/
inductive Role
  | user
  | assistant
deriving DecidableEq, Repr

/-- One conversation record appended to `st.session_state.messages`. -/
structure Message where
  role : Role
  content : String
deriving DecidableEq, Repr

/-- Embedding of the `ChatGroq` client constructed at `src/app.py:93`.
Temperature is modelled exactly as a rational. -/
structure ChatGroq where
  model : String
  groq_api_key : String
  temperature : Rat
  streaming : Bool
deriving DecidableEq, Repr

/-- The underlying callable of a tool descriptor: which library object backs
it, with the configuration the script passes explicitly
(`top_k_results`, the reasoning prompt template). -/
inductive ToolKind
  | wikipediaQueryRun (topKResults : Nat)
  | arxivQueryRun (topKResults : Nat)
  | duckDuckGoSearchRun
  | llmMathChainRun
  | llmChainRun (template : String)
deriving DecidableEq, Repr

/-- A tool descriptor as built by `setup_tools` (`src/app.py:104`).
`name`/`description` are `some` exactly when the script passes them
explicitly to `Tool(...)`; for the three lookup tools the library defaults
apply and the script passes nothing.  `backingLLM` records which model client
the tool wraps, `none` for the lookup tools. -/
structure Tool where
  kind : ToolKind
  name : Option String
  description : Option String
  backingLLM : Option ChatGroq
deriving DecidableEq, Repr

/-- Description string of the `Calculator` tool (`src/app.py:123`). -/
def calculatorDescription : String :=
  "A tool for performing mathematical calculations. Input only mathematical expressions."

/-- Description string of the `MathReasoning` tool (`src/app.py:147`). -/
def reasoningDescription : String :=
  "A tool for solving math problems step-by-step with detailed explanations."

/-- The prompt template of the reasoning tool (`src/app.py:127`). -/
def reasoningPrompt : String :=
  "\n    You\x27re an expert mathematics teacher. Solve the following problem step by step:\n    \n    \x7bquestion\x7d\n    \n    First, identify what information is given and what is being asked.\n    Then, lay out a clear strategy for solving the problem.\n    Show your work carefully, with each step clearly labeled.\n    Provide a final answer with appropriate units if applicable.\n    \n    Your solution:\n    "

/-- Embedding of `setup_tools` (`src/app.py:104`): the fixed five-element
tool list, in source order. -/
def setup_tools (llm : ChatGroq) : List Tool :=
  [ { kind := ToolKind.wikipediaQueryRun 2, name := none, description := none,
      backingLLM := none },
    { kind := ToolKind.arxivQueryRun 1, name := none, description := none,
      backingLLM := none },
    { kind := ToolKind.duckDuckGoSearchRun, name := none, description := none,
      backingLLM := none },
    { kind := ToolKind.llmMathChainRun, name := some "Calculator",
      description := some calculatorDescription, backingLLM := some llm },
    { kind := ToolKind.llmChainRun reasoningPrompt, name := some "MathReasoning",
      description := some reasoningDescription, backingLLM := some llm } ]

/-- The `agent=` argument of `initialize_agent` (`src/app.py:170`). -/
inductive AgentTypeT
  | zeroShotReactDescription
deriving DecidableEq, Repr

/-- The system message content passed at `src/app.py:155`. -/
def systemMessageContent : String :=
  "\n    You are an expert mathematics tutor and problem solver. Your goal is to:\n    1. Solve mathematical problems accurately\n    2. Provide clear, step-by-step explanations\n    3. Use the appropriate tools for calculations and information gathering\n    4. Organize your answers in a structured format with headings\n    5. Include formulas and equations where relevant\n    \n    For math problems, always show your work and explain your thinking.\n    For information queries, cite your sources where appropriate.\n    "

/-- The agent object returned by `initialize_agent` (`src/app.py:167`),
keeping every keyword argument the script passes. -/
structure Agent where
  tools : List Tool
  llm : ChatGroq
  agent : AgentTypeT
  verbose : Bool
  handleParsingErrors : Bool
  systemMessage : String
  earlyStoppingMethod : String
deriving DecidableEq, Repr

/-- Embedding of `initialize_math_agent` (`src/app.py:153`); the source reads
`llm` and `show_reasoning` from the enclosing script scope, here passed
explicitly. -/
def initialize_math_agent (tools : List Tool) (llm : ChatGroq)
    (show_reasoning : Bool) : Agent :=
  { tools := tools, llm := llm, agent := AgentTypeT.zeroShotReactDescription,
    verbose := show_reasoning, handleParsingErrors := true,
    systemMessage := systemMessageContent, earlyStoppingMethod := "generate" }

/-- The `StreamlitCallbackHandler` constructed at `src/app.py:227`: a
streaming sink writing into a container of the presentation layer, with the
one option the script sets. -/
structure StreamlitCallbackHandler where
  expandNewThoughts : Bool
deriving DecidableEq, Repr

/-- One invocation of `assistant_agent.run(question, callbacks=[st_cb])`
(`src/app.py:229`): which agent, which question, which callback handlers. -/
structure AgentCall where
  agent : Agent
  question : String
  callbacks : List StreamlitCallbackHandler
deriving DecidableEq, Repr

/-- The seeded greeting record (`src/app.py:179`). -/
def greetingMessage : Message :=
  { role := Role.assistant,
    content := "Hi, I\x27m your Math Problem Solver! Ask me any math question or problem, and I\x27ll solve it step-by-step." }

/-- The `model_options` dict (`src/app.py:54`), as an ordered
(key, label) list. -/
def model_options : List (String × String) :=
  [ ("gemma2-9b-it", "Gemma 2 9B (Fast)"),
    ("llama3-8b-8192", "Llama 3 8B (Balanced)"),
    ("llama3-70b-8192", "Llama 3 70B (Powerful)"),
    ("mixtral-8x7b-32768", "Mixtral 8x7B (Comprehensive)") ]

/-- The `example_problems` list (`src/app.py:188`). -/
def example_problems : List String :=
  [ "Solve for x: 2x + 5 = 15",
    "Find the area of a circle with radius 4 cm",
    "If a train travels at 60 mph and takes 3 hours to reach its destination, how far did it travel?",
    "I have 5 bananas and 7 grapes. I eat 2 bananas and give away 3 grapes. Then I buy a dozen apples and 2 packs of blueberries. Each pack contains 25 berries. How many total pieces of fruit do I have at the end?" ]

/-- The configuration of the temperature slider (`src/app.py:69`). -/
structure SliderSpec where
  minValue : Rat
  maxValue : Rat
  value : Rat
  step : Rat
deriving DecidableEq, Repr

/-- `st.slider("Temperature", min_value=0.0, max_value=1.0, value=0.2, step=0.1)`. -/
def temperatureSlider : SliderSpec :=
  { minValue := 0, maxValue := 1, value := 0.2, step := 0.1 }

/-- Default of the `show_reasoning` checkbox (`src/app.py:71`). -/
def showReasoningDefault : Bool := true

/-- The widget values visible to one script execution.  `solveClicked` and
`exampleClicked` are the per-execution button events; the rest are the
persistent widget values.  `exampleClicked = some i` means the button
`Example (i+1)` of the loop at `src/app.py:208` fired this execution. -/
structure Widgets where
  apiKeyInput : String
  selectedModel : String
  temperature : Rat
  showReasoning : Bool
  questionText : String
  solveClicked : Bool
  exampleClicked : Option (Fin 4)
deriving DecidableEq, Repr

/-- The widget values of a fresh session, before any user interaction:
the API key field pre-fills from `GROQ_API_KEY`, the selectbox from
`index=0`, the slider and checkbox from their declared defaults, the text
area is empty and no button has fired. -/
def defaultWidgets (envApiKey : String) : Widgets :=
  { apiKeyInput := envApiKey,
    selectedModel := (model_options.map Prod.fst).getD 0 "",
    temperature := temperatureSlider.value,
    showReasoning := showReasoningDefault,
    questionText := "",
    solveClicked := false,
    exampleClicked := none }

/-- How one script execution ended: `stopped` = `st.stop()` was reached,
`rerunRaised` = `st.experimental_rerun()` was raised, `completed` = the
script ran to its last line. -/
inductive Halt
  | stopped
  | rerunRaised
  | completed
deriving DecidableEq, Repr

/-- Observable effects of one script execution.  `messages` is the value of
`st.session_state["messages"]` afterwards (`none` when it was never set:
the session was fresh and the script stopped before `src/app.py:178`). -/
structure RunResult where
  messages : Option (List Message)
  halt : Halt
  client : Option ChatGroq
  toolsBuilt : Option (List Tool)
  agentCall : Option AgentCall
  chatInputRendered : Bool
  helpShown : Bool
  errorBanner : Option String
deriving DecidableEq, Repr

/-- One top-to-bottom execution of `src/app.py`.

* `w` — current widget values (including which button fired, if any);
* `sess` — `st.session_state["messages"]` before the run, `none` if unset;
* `initException` — `some e` iff the `ChatGroq(...)` constructor raises
  with message `e` (`src/app.py:92`), an outcome of the external library;
* `agentOutcome` — the outcome of `assistant_agent.run` (`src/app.py:229`)
  when it is reached: `Except.ok response` or `Except.error e`.

The branch order mirrors the source: the empty-key guard (`:75`) and the
client constructor (`:92`) come before session seeding (`:178`); the chat
input area (`:196`) renders next; a clicked example button (`:209`) appends
a user record and raises a rerun before the solve block (`:216`); the solve
block runs only when `solve_button and question` is truthy. -/
def runScript (w : Widgets) (sess : Option (List Message))
    (initException : Option String) (agentOutcome : Except String String) :
    RunResult :=
  if w.apiKeyInput = "" then
    { messages := sess, halt := Halt.stopped, client := none, toolsBuilt := none,
      agentCall := none, chatInputRendered := false, helpShown := true,
      errorBanner := none }
  else
    match initException with
    | some e =>
        { messages := sess, halt := Halt.stopped, client := none,
          toolsBuilt := none, agentCall := none, chatInputRendered := false,
          helpShown := false,
          errorBanner := some ("Error initializing the AI model: " ++ e) }
    | none =>
        let llm : ChatGroq :=
          { model := w.selectedModel, groq_api_key := w.apiKeyInput,
            temperature := w.temperature, streaming := true }
        let msgs0 : List Message := sess.getD [greetingMessage]
        match w.exampleClicked with
        | some i =>
            let q := example_problems.getD i.val ""
            { messages := some (msgs0 ++ [{ role := Role.user, content := q }]),
              halt := Halt.rerunRaised, client := some llm, toolsBuilt := none,
              agentCall := none, chatInputRendered := true, helpShown := false,
              errorBanner := none }
        | none =>
            if w.solveClicked ∧ w.questionText ≠ "" then
              let question := w.questionText
              let msgs1 := msgs0 ++ [{ role := Role.user, content := question }]
              let tools := setup_tools llm
              let agent := initialize_math_agent tools llm w.showReasoning
              let st_cb : StreamlitCallbackHandler :=
                { expandNewThoughts := w.showReasoning }
              match agentOutcome with
              | Except.ok response =>
                  { messages := some (msgs1 ++
                      [{ role := Role.assistant, content := response }]),
                    halt := Halt.completed, client := some llm,
                    toolsBuilt := some tools,
                    agentCall := some { agent := agent, question := question,
                                        callbacks := [st_cb] },
                    chatInputRendered := true, helpShown := false,
                    errorBanner := none }
              | Except.error e =>
                  let error_msg := "Error generating response: " ++ e
                  { messages := some (msgs1 ++
                      [{ role := Role.assistant, content := error_msg }]),
                    halt := Halt.completed, client := some llm,
                    toolsBuilt := some tools,
                    agentCall := some { agent := agent, question := question,
                                        callbacks := [st_cb] },
                    chatInputRendered := true, helpShown := false,
                    errorBanner := some error_msg }
            else
              { messages := some msgs0, halt := Halt.completed,
                client := some llm, toolsBuilt := none, agentCall := none,
                chatInputRendered := true, helpShown := false,
                errorBanner := none }

/-- The conversation list after a run, read back as a plain list (empty when
the session state was never set). -/
def finalMessages (r : RunResult) : List Message :=
  r.messages.getD []

/-- The callback handler list of the agent run started by `r`, if any. -/
def callbacksOf (r : RunResult) : Option (List StreamlitCallbackHandler) :=
  r.agentCall.map AgentCall.callbacks

/-- The `verbose` flag of the agent whose run `r` started, if any. -/
def verboseOf (r : RunResult) : Option Bool :=
  r.agentCall.map (fun c => c.agent.verbose)

/-- A concrete widget state: API key `"k"` present, the text of example 1
typed into the text area, the Solve Problem button clicked. -/
def wSolve : Widgets :=
  { apiKeyInput := "k", selectedModel := "gemma2-9b-it", temperature := 0.2,
    showReasoning := true, questionText := "Solve for x: 2x + 5 = 15",
    solveClicked := true, exampleClicked := none }

/-- Same state with the API key field empty. -/
def wEmptyKey : Widgets := { wSolve with apiKeyInput := "" }

/-- A state where the user clicks the `Example 1` button instead of typing:
text area empty, Solve not clicked, example button 0 fired. -/
def wExampleClick : Widgets :=
  { wSolve with
    solveClicked := false,
    questionText := "",
    exampleClicked := some 0 }

/-- The widget state of the execution triggered by the
`st.experimental_rerun()` of an example click: both buttons read `False`
again. -/
def wAfterRerun : Widgets := { wExampleClick with exampleClicked := none }

/-- Same solve state with the reasoning-visibility checkbox cleared. -/
def wNoReasoning : Widgets := { wSolve with showReasoning := false }

/-- Solve Problem clicked while the text area is empty. -/
def wEmptyQuestion : Widgets := { wSolve with questionText := "" }

/-- A second solve with a different temperature, model and question. -/
def wChangedConfig : Widgets :=
  { wSolve with
    temperature := 0.7,
    selectedModel := "llama3-8b-8192",
    questionText := "Find the area of a circle with radius 4 cm" }

theorem role_eq_user_or_assistant (r : Role) :
    r = Role.user ∨ r = Role.assistant := by
  cases r
  · exact Or.inl rfl
  · exact Or.inr rfl

/-- Every script execution leaves the prior conversation list as a prefix:
the only writes to `st.session_state.messages` are `append`s (and the
one-time seeding of a fresh session). -/
theorem runScript_messages_extends (w : Widgets) (sess : Option (List Message))
    (ie : Option String) (o : Except String String) :
    ∃ s : List Message,
      finalMessages (runScript w sess ie o) = sess.getD [] ++ s := by
  rcases sess with _ | l <;> by_cases hk : w.apiKeyInput = "" <;>
    rcases ie with _ | e <;> rcases hq : w.exampleClicked with _ | i <;>
    by_cases hs : (w.solveClicked ∧ w.questionText ≠ "") <;>
    rcases o with e2 | r <;>
    simp [runScript, finalMessages, hk, hq, hs]

/-- C1: for every solve invocation started with a non-empty question after
the model client was constructed successfully (no example button preempted
the block with a rerun), exactly one user record and then exactly one
assistant record are appended to the conversation, in that order — whether
the agent run returns or raises. -/
theorem c1_solve_appends_user_then_assistant (w : Widgets)
    (sess : Option (List Message)) (o : Except String String)
    (hkey : w.apiKeyInput ≠ "") (hex : w.exampleClicked = none)
    (hbtn : w.solveClicked = true) (hq : w.questionText ≠ "") :
    ∃ answer : String,
      (runScript w sess none o).messages =
        some (sess.getD [greetingMessage] ++
          [{ role := Role.user, content := w.questionText },
           { role := Role.assistant, content := answer }]) := by
  rcases o with e | r <;>
    simp [runScript, hkey, hex, hbtn, hq]

/-- Witness for C1 at a concrete input. -/
theorem c1_witness :
    wSolve.apiKeyInput ≠ "" ∧ wSolve.questionText ≠ "" ∧
    (∃ answer : String,
      (runScript wSolve (some [greetingMessage]) none
          (Except.ok "x = 5")).messages =
        some ([greetingMessage] ++
          [{ role := Role.user, content := wSolve.questionText },
           { role := Role.assistant, content := answer }])) :=
  ⟨by decide, by decide,
    c1_solve_appends_user_then_assistant wSolve (some [greetingMessage])
      (Except.ok "x = 5") (by decide) rfl rfl (by decide)⟩

/-- C2: if the agent run raises `e`, the solve handler appends exactly one
assistant record whose content is the literal `"Error generating response: "`
prefix followed by the error text, and the conversation holds exactly the one
user and one assistant record beyond the prior list — no partial or duplicate
record. -/
theorem c2_error_appends_single_error_record (w : Widgets)
    (sess : Option (List Message)) (e : String)
    (hkey : w.apiKeyInput ≠ "") (hex : w.exampleClicked = none)
    (hbtn : w.solveClicked = true) (hq : w.questionText ≠ "") :
    (runScript w sess none (Except.error e)).messages =
      some (sess.getD [greetingMessage] ++
        [{ role := Role.user, content := w.questionText },
         { role := Role.assistant,
           content := "Error generating response: " ++ e }]) := by
  simp [runScript, hkey, hex, hbtn, hq]

/-- Witness for C2 at a concrete input: the raised error text `"boom"`
appears literally in the one appended assistant record. -/
theorem c2_witness :
    wSolve.apiKeyInput ≠ "" ∧ wSolve.questionText ≠ "" ∧
    (runScript wSolve (some [greetingMessage]) none
        (Except.error "boom")).messages =
      some ([greetingMessage] ++
        [{ role := Role.user, content := wSolve.questionText },
         { role := Role.assistant,
           content := "Error generating response: " ++ "boom" }]) :=
  ⟨by decide, by decide,
    c2_error_appends_single_error_record wSolve (some [greetingMessage])
      "boom" (by decide) rfl rfl (by decide)⟩

/-- C3: for every model client, `setup_tools` returns exactly five tool
descriptors, in the fixed order Wikipedia (top 2 results), arXiv (top 1
result), DuckDuckGo web search, Calculator, MathReasoning; the count and
order are the same constant for every client configuration. -/
theorem c3_setup_tools_five_fixed_order (llm : ChatGroq) :
    (setup_tools llm).length = 5 ∧
    (setup_tools llm).map Tool.kind =
      [ToolKind.wikipediaQueryRun 2, ToolKind.arxivQueryRun 1,
       ToolKind.duckDuckGoSearchRun, ToolKind.llmMathChainRun,
       ToolKind.llmChainRun reasoningPrompt] ∧
    (setup_tools llm).map Tool.name =
      [none, none, none, some "Calculator", some "MathReasoning"] :=
  ⟨rfl, rfl, rfl⟩

/-- C4: whenever the API key is empty, the script stops before constructing
any model client, shows the help banner, never renders the chat input area,
and leaves the session conversation untouched. -/
theorem c4_empty_key_halts_pipeline (w : Widgets) (sess : Option (List Message))
    (ie : Option String) (o : Except String String)
    (hkey : w.apiKeyInput = "") :
    (runScript w sess ie o).halt = Halt.stopped ∧
    (runScript w sess ie o).client = none ∧
    (runScript w sess ie o).toolsBuilt = none ∧
    (runScript w sess ie o).agentCall = none ∧
    (runScript w sess ie o).helpShown = true ∧
    (runScript w sess ie o).chatInputRendered = false ∧
    (runScript w sess ie o).messages = sess := by
  simp [runScript, hkey]

/-- Witness for C4 at a concrete input. -/
theorem c4_witness :
    wEmptyKey.apiKeyInput = "" ∧
    (runScript wEmptyKey none none (Except.ok "x")).halt = Halt.stopped ∧
    (runScript wEmptyKey none none (Except.ok "x")).client = none ∧
    (runScript wEmptyKey none none (Except.ok "x")).toolsBuilt = none ∧
    (runScript wEmptyKey none none (Except.ok "x")).agentCall = none ∧
    (runScript wEmptyKey none none (Except.ok "x")).helpShown = true ∧
    (runScript wEmptyKey none none (Except.ok "x")).chatInputRendered = false ∧
    (runScript wEmptyKey none none (Except.ok "x")).messages = none :=
  ⟨by decide,
    (c4_empty_key_halts_pipeline wEmptyKey none none (Except.ok "x")
      (by decide)).1,
    (c4_empty_key_halts_pipeline wEmptyKey none none (Except.ok "x")
      (by decide)).2.1,
    (c4_empty_key_halts_pipeline wEmptyKey none none (Except.ok "x")
      (by decide)).2.2.1,
    (c4_empty_key_halts_pipeline wEmptyKey none none (Except.ok "x")
      (by decide)).2.2.2.1,
    (c4_empty_key_halts_pipeline wEmptyKey none none (Except.ok "x")
      (by decide)).2.2.2.2.1,
    (c4_empty_key_halts_pipeline wEmptyKey none none (Except.ok "x")
      (by decide)).2.2.2.2.2.1,
    (c4_empty_key_halts_pipeline wEmptyKey none none (Except.ok "x")
      (by decide)).2.2.2.2.2.2⟩

/-- C5 fails on the code: clicking an example button appends the user record
and raises `st.experimental_rerun()` before the solve block at
`src/app.py:216` can run; on the triggered re-execution both buttons read
`False` again, so no tools are built, no agent run starts and no assistant
record is ever appended — unlike typing the same text and clicking Solve
Problem, which appends the user record and then an assistant record from an
agent run.  This theorem evaluates both paths at the failing input. -/
theorem c5_example_click_never_reaches_solve :
    ((runScript wExampleClick (some [greetingMessage]) none
        (Except.ok "x = 5")).halt = Halt.rerunRaised ∧
     (runScript wExampleClick (some [greetingMessage]) none
        (Except.ok "x = 5")).toolsBuilt.isSome = false ∧
     (runScript wExampleClick (some [greetingMessage]) none
        (Except.ok "x = 5")).agentCall.isSome = false ∧
     (runScript wExampleClick (some [greetingMessage]) none
        (Except.ok "x = 5")).messages =
       some [greetingMessage,
             { role := Role.user, content := "Solve for x: 2x + 5 = 15" }]) ∧
    ((runScript wAfterRerun
        (some [greetingMessage,
               { role := Role.user, content := "Solve for x: 2x + 5 = 15" }])
        none (Except.ok "x = 5")).messages =
       some [greetingMessage,
             { role := Role.user, content := "Solve for x: 2x + 5 = 15" }] ∧
     (runScript wAfterRerun
        (some [greetingMessage,
               { role := Role.user, content := "Solve for x: 2x + 5 = 15" }])
        none (Except.ok "x = 5")).agentCall.isSome = false) ∧
    ((runScript wSolve (some [greetingMessage]) none
        (Except.ok "x = 5")).messages =
       some [greetingMessage,
             { role := Role.user, content := "Solve for x: 2x + 5 = 15" },
             { role := Role.assistant, content := "x = 5" }] ∧
     (runScript wSolve (some [greetingMessage]) none
        (Except.ok "x = 5")).agentCall.isSome = true) := by
  decide

/-- C6 as stated is refuted: with the reasoning-visibility flag cleared, the
script still constructs the Streamlit presentation callback and attaches it
to the agent run (`src/app.py:227-229`), so intermediate thought and action
events are still delivered to the presentation layer; the flag only reaches
the handler's `expand_new_thoughts` option and the agent's `verbose` flag. -/
theorem c6_counterexample_callback_attached_when_flag_unset :
    wNoReasoning.showReasoning = false ∧
    callbacksOf (runScript wNoReasoning (some [greetingMessage]) none
        (Except.ok "x = 5")) = some [{ expandNewThoughts := false }] ∧
    (callbacksOf (runScript wNoReasoning (some [greetingMessage]) none
        (Except.ok "x = 5"))).getD [] ≠ [] ∧
    verboseOf (runScript wNoReasoning (some [greetingMessage]) none
        (Except.ok "x = 5")) = some false := by
  decide

/-- C6 (amended): while a solve is running the presentation-layer callback
handler is attached to the agent run regardless of the reasoning-visibility
flag; the flag instead sets the handler's `expand_new_thoughts` option (how
thought events are displayed) and the agent's `verbose` flag. -/
theorem c6_amended_callback_always_attached (w : Widgets)
    (sess : Option (List Message)) (o : Except String String)
    (hkey : w.apiKeyInput ≠ "") (hex : w.exampleClicked = none)
    (hbtn : w.solveClicked = true) (hq : w.questionText ≠ "") :
    callbacksOf (runScript w sess none o) =
      some [{ expandNewThoughts := w.showReasoning }] ∧
    verboseOf (runScript w sess none o) = some w.showReasoning := by
  rcases o with e | r <;>
    simp [runScript, callbacksOf, verboseOf, initialize_math_agent,
      hkey, hex, hbtn, hq]

/-- Witness for the amended C6 at a concrete input with the flag set and one
with the flag cleared. -/
theorem c6_amended_witness :
    wSolve.apiKeyInput ≠ "" ∧ wSolve.questionText ≠ "" ∧
    callbacksOf (runScript wSolve (some [greetingMessage]) none
        (Except.ok "x = 5")) = some [{ expandNewThoughts := true }] ∧
    verboseOf (runScript wSolve (some [greetingMessage]) none
        (Except.ok "x = 5")) = some true :=
  ⟨by decide, by decide,
    (c6_amended_callback_always_attached wSolve (some [greetingMessage])
      (Except.ok "x = 5") (by decide) rfl rfl (by decide)).1,
    (c6_amended_callback_always_attached wSolve (some [greetingMessage])
      (Except.ok "x = 5") (by decide) rfl rfl (by decide)).2⟩

/-- C7: the conversation sequence is append-only — every script execution
(session seeding, example click, solve success, solve failure, halted runs)
leaves the prior conversation list as an unchanged prefix and only appends
records whose role is `user` or `assistant`. -/
theorem c7_conversation_append_only (w : Widgets) (sess : Option (List Message))
    (ie : Option String) (o : Except String String) :
    ∃ s : List Message,
      finalMessages (runScript w sess ie o) = sess.getD [] ++ s ∧
      ∀ m ∈ s, m.role = Role.user ∨ m.role = Role.assistant := by
  obtain ⟨s, hs⟩ := runScript_messages_extends w sess ie o
  exact ⟨s, hs, fun m _ => role_eq_user_or_assistant m.role⟩

/-- C8: pressing Solve Problem with an empty question starts no solve: the
conversation is unchanged, no tools are constructed, and no agent run is
started. -/
theorem c8_empty_question_no_solve (w : Widgets) (sess : List Message)
    (ie : Option String) (o : Except String String)
    (hex : w.exampleClicked = none) (hbtn : w.solveClicked = true)
    (hq : w.questionText = "") :
    (runScript w (some sess) ie o).messages = some sess ∧
    (runScript w (some sess) ie o).toolsBuilt = none ∧
    (runScript w (some sess) ie o).agentCall = none := by
  by_cases hk : w.apiKeyInput = "" <;> rcases ie with _ | e <;>
    simp [runScript, hk, hex, hq]

/-- Witness for C8 at a concrete input. -/
theorem c8_witness :
    wEmptyQuestion.solveClicked = true ∧ wEmptyQuestion.questionText = "" ∧
    (runScript wEmptyQuestion (some [greetingMessage]) none
        (Except.ok "x")).messages = some [greetingMessage] ∧
    (runScript wEmptyQuestion (some [greetingMessage]) none
        (Except.ok "x")).toolsBuilt = none ∧
    (runScript wEmptyQuestion (some [greetingMessage]) none
        (Except.ok "x")).agentCall = none :=
  ⟨by decide, by decide,
    (c8_empty_question_no_solve wEmptyQuestion [greetingMessage] none
      (Except.ok "x") rfl rfl (by decide)).1,
    (c8_empty_question_no_solve wEmptyQuestion [greetingMessage] none
      (Except.ok "x") rfl rfl (by decide)).2.1,
    (c8_empty_question_no_solve wEmptyQuestion [greetingMessage] none
      (Except.ok "x") rfl rfl (by decide)).2.2⟩

/-- C9: running a second solve with a changed temperature or model
identifier leaves every record of the already-completed first invocation in
place and unchanged (the first conversation list is a prefix of the second,
recovered exactly by `take`). -/
theorem c9_config_change_preserves_completed_records (w₁ w₂ : Widgets)
    (sess : Option (List Message)) (ie₁ ie₂ : Option String)
    (o₁ o₂ : Except String String)
    (hchange : w₁.temperature ≠ w₂.temperature ∨
      w₁.selectedModel ≠ w₂.selectedModel) :
    (finalMessages (runScript w₂
        (some (finalMessages (runScript w₁ sess ie₁ o₁))) ie₂ o₂)).take
      (finalMessages (runScript w₁ sess ie₁ o₁)).length =
    finalMessages (runScript w₁ sess ie₁ o₁) := by
  obtain ⟨s, hs⟩ := runScript_messages_extends w₂
    (some (finalMessages (runScript w₁ sess ie₁ o₁))) ie₂ o₂
  rw [hs]
  simp [List.take_left]

/-- Witness for C9: a completed solve at temperature 0.2 on `gemma2-9b-it`,
then a second solve at temperature 0.7 on `llama3-8b-8192`. -/
theorem c9_witness :
    wSolve.selectedModel ≠ wChangedConfig.selectedModel ∧
    (finalMessages (runScript wChangedConfig
        (some (finalMessages (runScript wSolve (some [greetingMessage]) none
          (Except.ok "x = 5")))) none (Except.ok "about 50 square cm"))).take
      (finalMessages (runScript wSolve (some [greetingMessage]) none
        (Except.ok "x = 5"))).length =
    finalMessages (runScript wSolve (some [greetingMessage]) none
      (Except.ok "x = 5")) :=
  ⟨by decide,
    c9_config_change_preserves_completed_records wSolve wChangedConfig
      (some [greetingMessage]) none none (Except.ok "x = 5")
      (Except.ok "about 50 square cm") (Or.inr (by decide))⟩

/-- C10: fresh-session defaults — the selectbox offers the four fixed model
identifiers with `gemma2-9b-it` first and selected (`index=0`), the
temperature slider is `[0,1]` in steps of `0.1` with default `0.2`, the
reasoning-visibility checkbox defaults to true, and the first execution that
reaches session seeding initializes the conversation with exactly the one
assistant greeting record. -/
theorem c10_fresh_session_defaults (envKey : String) (hkey : envKey ≠ "") :
    (defaultWidgets envKey).selectedModel = "gemma2-9b-it" ∧
    model_options.length = 4 ∧
    (model_options.map Prod.fst).getD 0 "" = "gemma2-9b-it" ∧
    temperatureSlider.value = 0.2 ∧
    temperatureSlider.minValue = 0 ∧
    temperatureSlider.maxValue = 1 ∧
    temperatureSlider.step = 0.1 ∧
    (defaultWidgets envKey).temperature = 0.2 ∧
    (defaultWidgets envKey).showReasoning = true ∧
    greetingMessage.role = Role.assistant ∧
    (runScript (defaultWidgets envKey) none none (Except.ok "")).messages =
      some [greetingMessage] := by
  refine ⟨rfl, rfl, rfl, rfl, rfl, rfl, rfl, rfl, rfl, rfl, ?_⟩
  simp [runScript, defaultWidgets, hkey]

/-- Witness for C10 with the environment key `"k"`. -/
theorem c10_witness :
    ("k" : String) ≠ "" ∧
    (defaultWidgets "k").selectedModel = "gemma2-9b-it" ∧
    temperatureSlider.value = 0.2 ∧
    (defaultWidgets "k").showReasoning = true ∧
    (runScript (defaultWidgets "k") none none (Except.ok "")).messages =
      some [greetingMessage] :=
  ⟨by decide,
    (c10_fresh_session_defaults "k" (by decide)).1,
    (c10_fresh_session_defaults "k" (by decide)).2.2.2.1,
    (c10_fresh_session_defaults "k" (by decide)).2.2.2.2.2.2.2.2.1,
    (c10_fresh_session_defaults "k" (by decide)).2.2.2.2.2.2.2.2.2.2⟩
